import Mathlib

/-!
Shallow embedding of the base-account transaction-authentication flow of
`x/accounts/defaults/base/account.go` (package `base`), together with proofs
of the specified properties.

The Go code is stateful (the account's sequence counter lives in collections
storage) and effectful (context-mediated calls to collaborators). The
embedding threads the account state (`AccountState`) explicitly and gathers
every external collaborator reachable through `ctx` or the `Account` struct
fields into an `Env` record. Fallible Go calls become `Except Err`; Go slice
indexing, which panics when out of range, is modelled by `List.getElem?` with
the `none` case mapped to `Err.indexOutOfRange`.
-/

namespace Base

/-- Byte strings (`[]byte`) are modelled as lists of naturals; the value
bound of 256 per byte is immaterial to every property proved here. -/
abbrev Bytes := List Nat

/-- Error results of the flow. Go returns `error` values built with
`fmt.Errorf`; each distinct error construction site in the source gets one
constructor, and errors produced inside external collaborators are chosen by
the environment. -/
inductive Err where
  /-- Go error "unauthorized: only accounts module is allowed to call this" -/
  | unauthorized
  /-- collaborator unreachable (spec taxonomy *Unavailable*) -/
  | unavailable
  /-- account-number query failed: missing account -/
  | accountNotFound
  /-- Error of `collections.Item.Get` on an unset item ("collections: not found") -/
  | collectionsNotFound
  /-- Go runtime panic on an out-of-range slice index -/
  | indexOutOfRange
  /-- Go error "unexpected sequence number, wanted: %d, got: %d" -/
  | sequenceMismatch (wanted got : Nat)
  /-- Error of `parseSignMode`: "only sign mode single accepted got: %v" -/
  | onlySignModeSingleAccepted
  /-- wrapper at the `Authenticate` call site: "unable to parse sign mode: %w" -/
  | unableToParseSignMode (e : Err)
  /-- Error when `signing.HandlerMap.GetSignBytes` finds no handler for the mode -/
  | unknownSignMode (mode : Nat)
  /-- Go error "signature verification failed" -/
  | signatureVerificationFailed
  /-- Failure of `proto.Unmarshal` -/
  | decodeFailure (s : String)
  /-- any other collaborator-produced error -/
  | other (s : String)
deriving Repr, DecidableEq

/-- Embeds `secp256k1.PubKey`: a compressed public key, `Key []byte`. -/
structure PubKey where
  key : Bytes
deriving Repr, DecidableEq

/-- Embeds `anypb.Any` / `codectypes.Any`: a self-describing typed value. -/
structure AnyPB where
  typeUrl : String
  value : Bytes
deriving Repr, DecidableEq

/-- Embeds `signing.SignerData`: the immutable per-attempt record assembled by
`computeSignerData`. -/
structure SignerData where
  address : String
  chainID : String
  accountNumber : Nat
  sequence : Nat
  pubKey : AnyPB
deriving Repr, DecidableEq

/-- Decoded protobuf transaction body (`txv1beta1.TxBody`). The
authentication flow never inspects its fields — it only decodes it and
stores it inside `TxData` — so it is modelled as the list of decoded
protobuf field records (field number, payload). -/
structure TxBody where
  fields : List (Nat × Bytes)
deriving Repr, DecidableEq

/-- Decoded protobuf auth-info (`txv1beta1.AuthInfo`), modelled like
`TxBody`: the flow stores it in `TxData` without inspecting it. -/
structure AuthInfoPB where
  fields : List (Nat × Bytes)
deriving Repr, DecidableEq

/-- Embeds `signing.TxData`: decoded body and auth-info plus the original encoded
byte strings. -/
structure TxData where
  body : TxBody
  authInfo : AuthInfoPB
  bodyBytes : Bytes
  authInfoBytes : Bytes
  bodyHasUnknownNonCriticals : Bool
deriving Repr, DecidableEq

/-- Embeds `tx.ModeInfo.Sum`: either a single-signer descriptor carrying a numeric
sign-mode value (`tx.ModeInfo_Single_`) or a composite multi-signer
descriptor carrying nested mode infos (`tx.ModeInfo_Multi_`). -/
inductive ModeInfo where
  | single (mode : Nat)
  | multi (modeInfos : List ModeInfo)
deriving Repr

/-- Embeds `tx.SignerInfo`: public key (unused by this flow), mode descriptor and
the claimed sequence number. -/
structure SignerInfo where
  publicKey : Option AnyPB
  modeInfo : ModeInfo
  sequence : Nat
deriving Repr

/-- Embeds `tx.AuthInfo` as used here: the signer-info list (fee is never read by
this flow and is elided). -/
structure AuthInfo where
  signerInfos : List SignerInfo
deriving Repr

/-- Embeds `tx.Tx` as used here: decoded auth-info and the signature list (the
decoded body is never read by this flow and is elided). -/
structure Tx where
  authInfo : AuthInfo
  signatures : List Bytes
deriving Repr

/-- Embeds `tx.TxRaw`: the raw encoded body and auth-info bytes. -/
structure TxRaw where
  bodyBytes : Bytes
  authInfoBytes : Bytes
deriving Repr, DecidableEq

/-- Embeds `aa_interface_v1.MsgAuthenticate`: bundler address, raw transaction,
decoded transaction and the signer index. -/
structure MsgAuthenticate where
  bundler : String
  rawTx : TxRaw
  tx : Tx
  signerIndex : Nat
deriving Repr

/-- The account's own storage: the `PubKey` collections item (absent when
never set) and the `Sequence` counter. -/
structure AccountState where
  pubKey : Option PubKey
  sequence : Nat
deriving Repr, DecidableEq

/-- Every external collaborator the flow reaches through `ctx` or the
`Account` struct: the accounts-module caller check, the account's own
address, the address codec, the header service, the account-number query,
the protobuf decoders and the signing handler map. -/
structure Env where
  /-- Result of `accountstd.SenderIsAccountsModule(ctx)` -/
  senderIsAccountsModule : Bool
  /-- Result of `accountstd.Whoami(ctx)`: the account's address bytes -/
  whoami : Bytes
  /-- The codec `addrCodec.BytesToString` -/
  addrToString : Bytes → Except Err String
  /-- Result of `hs.GetHeaderInfo(ctx).ChainID` -/
  chainID : String
  /-- The `accountstd.QueryModule` account-number lookup by address string -/
  accountNumber : String → Except Err Nat
  /-- Decoder `proto.Unmarshal` into `txv1beta1.TxBody` -/
  decodeTxBody : Bytes → Except Err TxBody
  /-- Decoder `proto.Unmarshal` into `txv1beta1.AuthInfo` -/
  decodeAuthInfo : Bytes → Except Err AuthInfoPB
  /-- Embeds `signing.HandlerMap`: the registered sign-bytes handler per mode -/
  handlers : Nat → Option (SignerData → TxData → Except Err Bytes)

/-- Modelled from the spec: `collections.Sequence.Next`
(`cosmossdk.io/collections` is outside the source fragment). The spec calls
it the atomic fetch-and-increment on the account's sequence counter: it
returns the current value and stores its successor. -/
def sequenceNext (st : AccountState) : Nat × AccountState :=
  (st.sequence, { st with sequence := st.sequence + 1 })

/-- Embeds `codectypes.NewAnyWithValue(&pk)` for a `secp256k1.PubKey`: packs the
key into a self-describing `Any`. Marshalling a well-formed key value never
fails, so this is total; the payload is the key's encoding, modelled as the
key bytes themselves. -/
def pubKeyToAny (pk : PubKey) : AnyPB :=
  { typeUrl := "/cosmos.crypto.secp256k1.PubKey", value := pk.key }

/-- Modelled from the spec: deterministic secp256k1 signing
(`github.com/cosmos/cosmos-sdk/crypto/keys/secp256k1` is outside the source
fragment). The spec states that the signature produced over the exact
canonical sign-bytes verifies and that any single-bit difference fails, so
verification accepts exactly one canonical signature per (key, message);
the concrete byte construction below is otherwise immaterial. -/
def canonicalSig (pk : PubKey) (msgBytes : Bytes) : Bytes :=
  pk.key ++ msgBytes

/-- Modelled from the spec: `secp256k1.PubKey.VerifySignature` — accepts
exactly the canonical deterministic signature for the key and message. -/
def verifySignature (pk : PubKey) (msgBytes sig : Bytes) : Bool :=
  sig == canonicalSig pk msgBytes

/-- Embeds `parseSignMode`: accepts only the single-signer descriptor shape and
returns its numeric mode value; any other shape is rejected. -/
def parseSignMode (info : ModeInfo) : Except Err Nat :=
  match info with
  | .single mode => .ok mode
  | .multi _ => .error .onlySignModeSingleAccepted

/-- Embeds `Account.getNumber`: account-number query via the accounts module. -/
def getNumber (env : Env) (addrStr : String) : Except Err Nat :=
  env.accountNumber addrStr

/-- Embeds `Account.computeSignerData`: assembles the `SignerData` record and, as a
side effect, advances the sequence counter (the state is threaded
explicitly; the returned state reflects storage after the call). -/
def computeSignerData (env : Env) (st : AccountState) :
    AccountState × Except Err (PubKey × SignerData) :=
  match env.addrToString env.whoami with
  | .error e => (st, .error e)
  | .ok addrStr =>
    let chainID := env.chainID
    match sequenceNext st with
    | (wantSequence, st') =>
      match st'.pubKey with
      | none => (st', .error .collectionsNotFound)
      | some pk =>
        let pkAny := pubKeyToAny pk
        match getNumber env addrStr with
        | .error e => (st', .error e)
        | .ok accNum =>
          (st', .ok (pk,
            { address := addrStr
              chainID := chainID
              accountNumber := accNum
              sequence := wantSequence
              pubKey := { typeUrl := pkAny.typeUrl, value := pkAny.value } }))

/-- Embeds `Account.getTxData`: decodes body and auth-info from the raw bytes and
returns them together with the original byte strings;
`BodyHasUnknownNonCriticals` is set to `false` unconditionally. -/
def getTxData (env : Env) (msg : MsgAuthenticate) : Except Err TxData :=
  match env.decodeTxBody msg.rawTx.bodyBytes with
  | .error e => .error e
  | .ok txBody =>
    match env.decodeAuthInfo msg.rawTx.authInfoBytes with
    | .error e => .error e
    | .ok authInfo =>
      .ok
        { body := txBody
          authInfo := authInfo
          bodyBytes := msg.rawTx.bodyBytes
          authInfoBytes := msg.rawTx.authInfoBytes
          bodyHasUnknownNonCriticals := false }

/-- Embeds `signing.HandlerMap.GetSignBytes`: looks up the handler registered for
the mode and runs it; a missing handler is an error. -/
def getSignBytes (env : Env) (mode : Nat) (signerData : SignerData)
    (txData : TxData) : Except Err Bytes :=
  match env.handlers mode with
  | none => .error (.unknownSignMode mode)
  | some h => h signerData txData

/-- Embeds `Account.Authenticate`: the authentication flow. Mirrors the source
line by line; the two bare slice indexings of the Go code
(`SignerInfos[msg.SignerIndex]`, `Signatures[msg.SignerIndex]`) are
modelled with `getElem?`, the `none` case being the Go out-of-range panic. -/
def Authenticate (env : Env) (st : AccountState) (msg : MsgAuthenticate) :
    AccountState × Except Err Unit :=
  if !env.senderIsAccountsModule then
    (st, .error .unauthorized)
  else
    match computeSignerData env st with
    | (st', .error e) => (st', .error e)
    | (st', .ok (pubKey, signerData)) =>
      match getTxData env msg with
      | .error e => (st', .error e)
      | .ok txData =>
        match msg.tx.authInfo.signerInfos[msg.signerIndex]? with
        | none => (st', .error .indexOutOfRange)
        | some si =>
          if si.sequence ≠ signerData.sequence then
            (st', .error (.sequenceMismatch signerData.sequence si.sequence))
          else
            match parseSignMode si.modeInfo with
            | .error e => (st', .error (.unableToParseSignMode e))
            | .ok signMode =>
              match msg.tx.signatures[msg.signerIndex]? with
              | none => (st', .error .indexOutOfRange)
              | some signature =>
                match getSignBytes env signMode signerData txData with
                | .error e => (st', .error e)
                | .ok signBytes =>
                  if verifySignature pubKey signBytes signature then
                    (st', .ok ())
                  else
                    (st', .error .signatureVerificationFailed)

/-- The sequence number a call starting from `st` consumes: defined (via
`computeSignerData`) exactly when assembly succeeds. -/
def consumedSequence (env : Env) (st : AccountState) : Option Nat :=
  match (computeSignerData env st).2 with
  | .ok (_, signerData) => some signerData.sequence
  | .error _ => none

/-- Flip bit `i` (little-endian within each byte) of a byte string. -/
def flipBit (bs : Bytes) (i : Nat) : Bytes :=
  bs.set (i / 8) (bs.getD (i / 8) 0 ^^^ 2 ^ (i % 8))

/-! Concrete fixture used by the witnesses: an environment, an account
state at sequence 0 and a message that authenticates successfully. -/

/-- Fixture environment: privileged caller, total collaborators, a handler
registered for every mode that signs over the raw body bytes. -/
def egEnv : Env where
  senderIsAccountsModule := true
  whoami := [1]
  addrToString := fun _ => .ok "cosmos1example"
  chainID := "test-chain"
  accountNumber := fun _ => .ok 5
  decodeTxBody := fun _ => .ok { fields := [] }
  decodeAuthInfo := fun _ => .ok { fields := [] }
  handlers := fun _ => some (fun _ txData => .ok txData.bodyBytes)

/-- Fixture account state: key set, sequence counter at 0. -/
def egState : AccountState where
  pubKey := some { key := [9] }
  sequence := 0

/-- State `egState` after one sequence consumption. -/
def egStNext : AccountState where
  pubKey := some { key := [9] }
  sequence := 1

/-- State `egState` after two sequence consumptions. -/
def egStNext2 : AccountState where
  pubKey := some { key := [9] }
  sequence := 2

/-- Fixture message: one signer at index 0, claimed sequence 0, single
sign mode 1, signature equal to the canonical signature of the fixture
key over the fixture body bytes. -/
def egMsg : MsgAuthenticate where
  bundler := ""
  rawTx := { bodyBytes := [5, 6], authInfoBytes := [7] }
  tx :=
    { authInfo :=
        { signerInfos := [{ publicKey := none, modeInfo := .single 1, sequence := 0 }] }
      signatures := [[9, 5, 6]] }
  signerIndex := 0

/-- Message `egMsg` with claimed sequence 7 instead of the expected 0. -/
def egMsgSeq7 : MsgAuthenticate :=
  { egMsg with tx :=
      { egMsg.tx with authInfo :=
          { signerInfos := [{ publicKey := none, modeInfo := .single 1, sequence := 7 }] } } }

/-- Message `egMsg` with claimed sequence 1: the message that succeeds right after
`egMsg` has been authenticated (the fixture handler's sign-bytes do not
depend on the signer data, so the same signature remains canonical). -/
def egMsgSeq1 : MsgAuthenticate :=
  { egMsg with tx :=
      { egMsg.tx with authInfo :=
          { signerInfos := [{ publicKey := none, modeInfo := .single 1, sequence := 1 }] } } }

/-- Message `egMsg` with an out-of-range signer index (2, for a one-entry list). -/
def egMsgOOB : MsgAuthenticate :=
  { egMsg with signerIndex := 2 }

/-- Message `egMsg` with a composite multi-signer mode descriptor. -/
def egMsgMulti : MsgAuthenticate :=
  { egMsg with tx :=
      { egMsg.tx with authInfo :=
          { signerInfos :=
              [{ publicKey := none, modeInfo := .multi [.single 1], sequence := 0 }] } } }

/-- Message `egMsg` with bit 0 of its (valid) signature flipped. -/
def egMsgFlipped : MsgAuthenticate :=
  { egMsg with tx := { egMsg.tx with signatures := [[8, 5, 6]] } }

/-- Fixture environment with an empty signing handler map. -/
def egEnvNoHandlers : Env :=
  { egEnv with handlers := fun _ => none }

/-- Fixture signer data (what `computeSignerData egEnv egState` returns). -/
def egSignerData : SignerData where
  address := "cosmos1example"
  chainID := "test-chain"
  accountNumber := 5
  sequence := 0
  pubKey := { typeUrl := "/cosmos.crypto.secp256k1.PubKey", value := [9] }

/-- Fixture tx data (what `getTxData egEnv egMsg` returns). -/
def egTxData : TxData where
  body := { fields := [] }
  authInfo := { fields := [] }
  bodyBytes := [5, 6]
  authInfoBytes := [7]
  bodyHasUnknownNonCriticals := false

/-- Helper: whenever the address codec succeeds, `computeSignerData`
returns — on success and on every later failure alike — the state with the
sequence counter advanced by one and nothing else changed. -/
theorem computeSignerData_fst (env : Env) (st : AccountState) (addr : String)
    (haddr : env.addrToString env.whoami = Except.ok addr) :
    (computeSignerData env st).1 = { st with sequence := st.sequence + 1 } := by
  unfold computeSignerData
  rw [haddr]
  simp only [sequenceNext, getNumber]
  cases hpk : st.pubKey with
  | none => simp [hpk]
  | some pk =>
    cases hn : env.accountNumber addr with
    | error e => simp [hpk, hn]
    | ok n => simp [hpk, hn]

/-- Helper: successful signer-data assembly consumed exactly the current
sequence number, advanced the counter by one, and returned the stored key. -/
theorem computeSignerData_ok (env : Env) (st : AccountState)
    {st' : AccountState} {pk : PubKey} {sd : SignerData}
    (h : computeSignerData env st = (st', Except.ok (pk, sd))) :
    sd.sequence = st.sequence
    ∧ st' = { st with sequence := st.sequence + 1 }
    ∧ st.pubKey = some pk := by
  unfold computeSignerData at h
  cases haddr : env.addrToString env.whoami with
  | error e => rw [haddr] at h; simp at h
  | ok addr =>
    rw [haddr] at h
    simp only [sequenceNext, getNumber] at h
    cases hpk : st.pubKey with
    | none => simp [hpk] at h
    | some pk' =>
      cases hn : env.accountNumber addr with
      | error e => simp [hpk, hn] at h
      | ok n =>
        simp only [hpk, hn, Prod.mk.injEq, Except.ok.injEq] at h
        obtain ⟨hst, hpk', hsd⟩ := h
        subst hpk' hst
        rw [← hsd]
        exact ⟨rfl, rfl, rfl⟩

/-- Helper: with a privileged caller, `Authenticate` returns exactly the
state `computeSignerData` produced — no later step writes to the state. -/
theorem Authenticate_fst (env : Env) (st : AccountState) (msg : MsgAuthenticate)
    (hpriv : env.senderIsAccountsModule = true) :
    (Authenticate env st msg).1 = (computeSignerData env st).1 := by
  unfold Authenticate
  rw [hpriv]
  simp only [Bool.not_true, Bool.false_eq_true, if_false]
  split
  next st' e heq => rw [heq]
  next st' pk sd heq =>
    rw [heq]
    repeat' (first | rfl | split)

/-- C4: a call to Authenticate whose caller is not the accounts module
fails with the unauthorized error and returns the account state untouched:
the sequence counter is neither read nor advanced. -/
theorem authenticate_unauthorized (env : Env) (st : AccountState)
    (msg : MsgAuthenticate) (h : env.senderIsAccountsModule = false) :
    Authenticate env st msg = (st, Except.error Err.unauthorized) := by
  simp [Authenticate, h]

/-- Witness for C4 at a concrete non-privileged environment. -/
theorem authenticate_unauthorized_witness :
    Authenticate { egEnv with senderIsAccountsModule := false } egState egMsg
      = (egState, Except.error Err.unauthorized) :=
  authenticate_unauthorized { egEnv with senderIsAccountsModule := false }
    egState egMsg rfl

/-- C8: when both decodes succeed, the `TxData` handed to the sign-bytes
handler carries the raw request bytes unchanged: `BodyBytes` and
`AuthInfoBytes` are byte-for-byte the request's raw bytes, never a
re-encoding of the decoded structures. -/
theorem getTxData_preserves_raw_bytes (env : Env) (msg : MsgAuthenticate)
    {td : TxData} (h : getTxData env msg = Except.ok td) :
    td.bodyBytes = msg.rawTx.bodyBytes
    ∧ td.authInfoBytes = msg.rawTx.authInfoBytes := by
  unfold getTxData at h
  cases hb : env.decodeTxBody msg.rawTx.bodyBytes with
  | error e => rw [hb] at h; simp at h
  | ok body =>
    rw [hb] at h
    cases ha : env.decodeAuthInfo msg.rawTx.authInfoBytes with
    | error e => rw [ha] at h; simp at h
    | ok ai =>
      rw [ha] at h
      simp only [Except.ok.injEq] at h
      rw [← h]
      exact ⟨rfl, rfl⟩

/-- Witness for C8 at the concrete fixture request. -/
theorem getTxData_preserves_raw_bytes_witness :
    egTxData.bodyBytes = egMsg.rawTx.bodyBytes
    ∧ egTxData.authInfoBytes = egMsg.rawTx.authInfoBytes :=
  getTxData_preserves_raw_bytes egEnv egMsg rfl

/-- C9: when both decodes succeed, `getTxData` sets
`BodyHasUnknownNonCriticals` to `false` unconditionally, whatever the
decoded body contains. -/
theorem getTxData_unknownNonCriticals_false (env : Env) (msg : MsgAuthenticate)
    {td : TxData} (h : getTxData env msg = Except.ok td) :
    td.bodyHasUnknownNonCriticals = false := by
  unfold getTxData at h
  cases hb : env.decodeTxBody msg.rawTx.bodyBytes with
  | error e => rw [hb] at h; simp at h
  | ok body =>
    rw [hb] at h
    cases ha : env.decodeAuthInfo msg.rawTx.authInfoBytes with
    | error e => rw [ha] at h; simp at h
    | ok ai =>
      rw [ha] at h
      simp only [Except.ok.injEq] at h
      rw [← h]

/-- Witness for C9 at the concrete fixture request. -/
theorem getTxData_unknownNonCriticals_false_witness :
    egTxData.bodyHasUnknownNonCriticals = false :=
  getTxData_unknownNonCriticals_false egEnv egMsg rfl

/-- C10: `parseSignMode` accepts every single-signer descriptor and returns
its numeric mode value unvalidated; a mode with no registered handler is
rejected only later, when the handler map is consulted during sign-bytes
computation. -/
theorem parseSignMode_single_unvalidated (m : Nat) (env : Env)
    (sd : SignerData) (td : TxData) :
    parseSignMode (ModeInfo.single m) = Except.ok m
    ∧ (env.handlers m = none →
        getSignBytes env m sd td = Except.error (Err.unknownSignMode m)) := by
  refine ⟨rfl, fun hnone => ?_⟩
  unfold getSignBytes
  rw [hnone]

/-- Witness for C10 at the concrete mode value 777 (not a registered or even
meaningful sign mode) and the handler-free fixture environment. -/
theorem parseSignMode_single_unvalidated_witness :
    parseSignMode (ModeInfo.single 777) = Except.ok 777
    ∧ getSignBytes egEnvNoHandlers 777 egSignerData egTxData
        = Except.error (Err.unknownSignMode 777) :=
  ⟨(parseSignMode_single_unvalidated 777 egEnvNoHandlers egSignerData egTxData).1,
   (parseSignMode_single_unvalidated 777 egEnvNoHandlers egSignerData egTxData).2 rfl⟩

/-- C1: with a privileged caller, successful signer-data assembly and tx
decoding, and a valid signer index, a claimed sequence number different
from the one just consumed is rejected with the sequence-mismatch error,
and the sequence counter has still advanced by exactly one. -/
theorem authenticate_sequence_mismatch (env : Env) (st : AccountState)
    (msg : MsgAuthenticate) {st' : AccountState} {pk : PubKey}
    {sd : SignerData} {td : TxData} {si : SignerInfo}
    (hpriv : env.senderIsAccountsModule = true)
    (hcsd : computeSignerData env st = (st', Except.ok (pk, sd)))
    (htd : getTxData env msg = Except.ok td)
    (hsi : msg.tx.authInfo.signerInfos[msg.signerIndex]? = some si)
    (hne : si.sequence ≠ sd.sequence) :
    (Authenticate env st msg).2
        = Except.error (Err.sequenceMismatch sd.sequence si.sequence)
    ∧ (Authenticate env st msg).1.sequence = st.sequence + 1 := by
  have hst := (computeSignerData_ok env st hcsd).2.1
  have hrun : Authenticate env st msg
      = (st', Except.error (Err.sequenceMismatch sd.sequence si.sequence)) := by
    unfold Authenticate
    rw [hpriv]
    simp only [Bool.not_true, Bool.false_eq_true, if_false]
    rw [hcsd]
    simp only [htd, hsi]
    rw [if_pos hne]
  rw [hrun, hst]
  exact ⟨rfl, rfl⟩

/-- Witness for C1: fixture account at sequence 0, claimed sequence 7. -/
theorem authenticate_sequence_mismatch_witness :
    (Authenticate egEnv egState egMsgSeq7).2
        = Except.error (Err.sequenceMismatch 0 7)
    ∧ (Authenticate egEnv egState egMsgSeq7).1.sequence = egState.sequence + 1 :=
  authenticate_sequence_mismatch egEnv egState egMsgSeq7 rfl rfl rfl rfl (by decide)

/-- C2 as stated is false on the code: at this concrete request with an
out-of-range signer index (index 2 into a one-entry signer-info list) the
flow has already advanced the sequence counter when it reaches the
unchecked slice access, so state does change, and the failure is the
out-of-range access (a Go panic), not a malformed-request check. -/
theorem authenticate_index_out_of_range_counterexample :
    egMsgOOB.signerIndex = 2
    ∧ egMsgOOB.tx.authInfo.signerInfos.length = 1
    ∧ egEnv.senderIsAccountsModule = true
    ∧ (Authenticate egEnv egState egMsgOOB).1 ≠ egState
    ∧ (Authenticate egEnv egState egMsgOOB).2 = Except.error Err.indexOutOfRange
    ∧ (Authenticate egEnv egState egMsgOOB).1.sequence = egState.sequence + 1 := by
  refine ⟨rfl, rfl, rfl, ?_, rfl, rfl⟩
  decide

/-- C2 (amended): with a privileged caller, when signer-data assembly and
tx decoding succeed but the signer index is out of range for the
signer-info list, the call fails with the out-of-range slice access (a Go
panic — there is no MalformedRequest check in the code) and the sequence
counter has already advanced by exactly one. -/
theorem authenticate_index_out_of_range (env : Env) (st : AccountState)
    (msg : MsgAuthenticate) {st' : AccountState} {pk : PubKey}
    {sd : SignerData} {td : TxData}
    (hpriv : env.senderIsAccountsModule = true)
    (hcsd : computeSignerData env st = (st', Except.ok (pk, sd)))
    (htd : getTxData env msg = Except.ok td)
    (hoob : msg.tx.authInfo.signerInfos[msg.signerIndex]? = none) :
    Authenticate env st msg = (st', Except.error Err.indexOutOfRange)
    ∧ st'.sequence = st.sequence + 1 := by
  have hst := (computeSignerData_ok env st hcsd).2.1
  constructor
  · unfold Authenticate
    rw [hpriv]
    simp only [Bool.not_true, Bool.false_eq_true, if_false]
    rw [hcsd]
    simp only [htd, hoob]
  · rw [hst]

/-- Witness for C2's amended statement at the concrete fixture request. -/
theorem authenticate_index_out_of_range_witness :
    Authenticate egEnv egState egMsgOOB
      = (egStNext, Except.error Err.indexOutOfRange)
    ∧ egStNext.sequence = egState.sequence + 1 :=
  authenticate_index_out_of_range egEnv egState egMsgOOB rfl rfl rfl rfl

/-- C5: with a privileged caller, valid signer index and matching sequence
number, a composite (multi-signer) mode descriptor is rejected with the
sign-mode parse error (the *UnsupportedSignMode* of the spec taxonomy,
wrapped at the call site), the sequence counter has still advanced by one,
and the outcome is the same for every possible signature content —
signature verification is never reached. -/
theorem authenticate_composite_mode (env : Env) (st : AccountState)
    (msg : MsgAuthenticate) {st' : AccountState} {pk : PubKey}
    {sd : SignerData} {td : TxData} {si : SignerInfo} {infos : List ModeInfo}
    (hpriv : env.senderIsAccountsModule = true)
    (hcsd : computeSignerData env st = (st', Except.ok (pk, sd)))
    (htd : getTxData env msg = Except.ok td)
    (hsi : msg.tx.authInfo.signerInfos[msg.signerIndex]? = some si)
    (hseq : si.sequence = sd.sequence)
    (hmulti : si.modeInfo = ModeInfo.multi infos) :
    (Authenticate env st msg).2
        = Except.error (Err.unableToParseSignMode Err.onlySignModeSingleAccepted)
    ∧ (Authenticate env st msg).1.sequence = st.sequence + 1
    ∧ ∀ sigs : List Bytes,
        (Authenticate env st
            { msg with tx := { msg.tx with signatures := sigs } }).2
          = Except.error (Err.unableToParseSignMode Err.onlySignModeSingleAccepted) := by
  have hst := (computeSignerData_ok env st hcsd).2.1
  have hkey : ∀ sigs : List Bytes,
      (Authenticate env st
          { msg with tx := { msg.tx with signatures := sigs } }).2
        = Except.error (Err.unableToParseSignMode Err.onlySignModeSingleAccepted) := by
    intro sigs
    have htd' : getTxData env
        { msg with tx := { msg.tx with signatures := sigs } } = Except.ok td := htd
    have hsi' :
        ({ msg with tx := { msg.tx with signatures := sigs } } :
            MsgAuthenticate).tx.authInfo.signerInfos[msg.signerIndex]? = some si := hsi
    unfold Authenticate
    rw [hpriv]
    simp only [Bool.not_true, Bool.false_eq_true, if_false]
    rw [hcsd]
    simp only [htd', hsi']
    rw [if_neg (fun h => h hseq)]
    simp [parseSignMode, hmulti]
  have hfirst := hkey msg.tx.signatures
  refine ⟨hfirst, ?_, hkey⟩
  rw [Authenticate_fst env st msg hpriv, hcsd, hst]

/-- Witness for C5 at the concrete fixture request with a composite mode,
including one concrete alternative signature list. -/
theorem authenticate_composite_mode_witness :
    (Authenticate egEnv egState egMsgMulti).2
        = Except.error (Err.unableToParseSignMode Err.onlySignModeSingleAccepted)
    ∧ (Authenticate egEnv egState egMsgMulti).1.sequence = egState.sequence + 1
    ∧ (Authenticate egEnv egState
          { egMsgMulti with tx := { egMsgMulti.tx with signatures := [[1, 2]] } }).2
        = Except.error (Err.unableToParseSignMode Err.onlySignModeSingleAccepted) := by
  obtain ⟨h1, h2, h3⟩ :=
    authenticate_composite_mode egEnv egState egMsgMulti rfl rfl rfl rfl rfl rfl
  exact ⟨h1, h2, h3 [[1, 2]]⟩

/-- C6: once past the privilege check, whenever the flow consumes a
sequence number (the address decode succeeded, so the fetch-and-increment
ran), the only state change of the whole call — on success and on every
error path alike — is the sequence counter advancing by exactly one; in
particular the stored public key is never modified. -/
theorem authenticate_frame (env : Env) (st : AccountState)
    (msg : MsgAuthenticate) (addr : String)
    (hpriv : env.senderIsAccountsModule = true)
    (haddr : env.addrToString env.whoami = Except.ok addr) :
    (Authenticate env st msg).1.pubKey = st.pubKey
    ∧ (Authenticate env st msg).1.sequence = st.sequence + 1 := by
  rw [Authenticate_fst env st msg hpriv, computeSignerData_fst env st addr haddr]
  exact ⟨rfl, rfl⟩

/-- Witness for C6 at the concrete fixture request. -/
theorem authenticate_frame_witness :
    (Authenticate egEnv egState egMsg).1.pubKey = egState.pubKey
    ∧ (Authenticate egEnv egState egMsg).1.sequence = egState.sequence + 1 :=
  authenticate_frame egEnv egState egMsg "cosmos1example" rfl rfl

/-- Helper: a successful authentication consumed exactly the starting
sequence number and left the counter advanced by one. -/
theorem Authenticate_ok_facts (env : Env) (st st₁ : AccountState)
    (msg : MsgAuthenticate)
    (h : Authenticate env st msg = (st₁, Except.ok ())) :
    consumedSequence env st = some st.sequence
    ∧ st₁.sequence = st.sequence + 1 := by
  cases hp : env.senderIsAccountsModule with
  | false =>
    unfold Authenticate at h
    rw [hp] at h
    simp at h
  | true =>
    rcases hc : computeSignerData env st with ⟨st', r⟩
    cases r with
    | error e =>
      unfold Authenticate at h
      rw [hp] at h
      simp only [Bool.not_true, Bool.false_eq_true, if_false] at h
      rw [hc] at h
      simp at h
    | ok v =>
      obtain ⟨pk, sd⟩ := v
      obtain ⟨hseq, hst', hpk⟩ := computeSignerData_ok env st hc
      have hfst : st₁ = (Authenticate env st msg).1 := by rw [h]
      rw [Authenticate_fst env st msg hp, hc] at hfst
      constructor
      · simp [consumedSequence, hc, hseq]
      · rw [hfst, hst']

/-- C7: two consecutive successful authentications consume two strictly
increasing, consecutive sequence numbers: the first consumes the starting
sequence `n`, the second consumes `n + 1`. -/
theorem authenticate_consecutive_sequences (env₁ env₂ : Env)
    (st st₁ st₂ : AccountState) (msg₁ msg₂ : MsgAuthenticate)
    (h1 : Authenticate env₁ st msg₁ = (st₁, Except.ok ()))
    (h2 : Authenticate env₂ st₁ msg₂ = (st₂, Except.ok ())) :
    consumedSequence env₁ st = some st.sequence
    ∧ consumedSequence env₂ st₁ = some (st.sequence + 1) := by
  obtain ⟨c1, s1⟩ := Authenticate_ok_facts env₁ st st₁ msg₁ h1
  obtain ⟨c2, s2⟩ := Authenticate_ok_facts env₂ st₁ st₂ msg₂ h2
  exact ⟨c1, by rw [c2, s1]⟩

/-- Witness for C7: the fixture message at claimed sequence 0 and then its
claimed-sequence-1 variant both authenticate, consuming 0 then 1. -/
theorem authenticate_consecutive_sequences_witness :
    consumedSequence egEnv egState = some egState.sequence
    ∧ consumedSequence egEnv egStNext = some (egState.sequence + 1) :=
  authenticate_consecutive_sequences egEnv egEnv egState egStNext egStNext2
    egMsg egMsgSeq1 rfl rfl

/-- Helper: flipping a bit that lies inside the string changes the string. -/
theorem flipBit_ne (bs : Bytes) (i : Nat) (hi : i < 8 * bs.length) :
    flipBit bs i ≠ bs := by
  intro hEq
  have hj : i / 8 < bs.length := by
    rw [Nat.div_lt_iff_lt_mul (by decide : 0 < 8)]
    omega
  have hget := congrArg (fun l => l[i / 8]?) hEq
  simp only [flipBit, List.getElem?_set_self hj, List.getElem?_eq_getElem hj,
    List.getD_eq_getElem?_getD, Option.getD_some, Option.some.injEq] at hget
  have h5 : bs[i / 8] ^^^ (bs[i / 8] ^^^ 2 ^ (i % 8)) = bs[i / 8] ^^^ bs[i / 8] := by
    rw [hget]
  rw [← Nat.xor_assoc, Nat.xor_self, Nat.zero_xor] at h5
  have hpos : (0 : Nat) < 2 ^ (i % 8) := Nat.two_pow_pos (i % 8)
  omega

/-- C3: with a privileged caller, valid signer index, matching sequence, a
single-signer mode with a registered handler and its sign-bytes computed,
the signature equal to the canonical signature of the stored key over
those exact sign-bytes authenticates; flipping any single bit of that
signature makes the call fail with the signature-verification error. -/
theorem authenticate_signature_correct (env : Env) (st : AccountState)
    (msg : MsgAuthenticate) {st' : AccountState} {pk : PubKey}
    {sd : SignerData} {td : TxData} {si : SignerInfo} {m : Nat}
    {sig signBytes : Bytes}
    (hpriv : env.senderIsAccountsModule = true)
    (hcsd : computeSignerData env st = (st', Except.ok (pk, sd)))
    (htd : getTxData env msg = Except.ok td)
    (hsi : msg.tx.authInfo.signerInfos[msg.signerIndex]? = some si)
    (hseq : si.sequence = sd.sequence)
    (hmode : parseSignMode si.modeInfo = Except.ok m)
    (hsig : msg.tx.signatures[msg.signerIndex]? = some sig)
    (hsb : getSignBytes env m sd td = Except.ok signBytes)
    (hv : verifySignature pk signBytes sig = true) :
    Authenticate env st msg = (st', Except.ok ())
    ∧ ∀ i : Nat, i < 8 * sig.length →
        (Authenticate env st
            { msg with tx := { msg.tx with
                signatures :=
                  msg.tx.signatures.set msg.signerIndex (flipBit sig i) } }).2
          = Except.error Err.signatureVerificationFailed := by
  constructor
  · unfold Authenticate
    rw [hpriv]
    simp only [Bool.not_true, Bool.false_eq_true, if_false]
    rw [hcsd]
    simp only [htd, hsi]
    rw [if_neg (fun h => h hseq)]
    simp only [hmode, hsig, hsb]
    rw [if_pos hv]
  · intro i hi
    have hlen : msg.signerIndex < msg.tx.signatures.length :=
      (List.getElem?_eq_some.mp hsig).1
    have hsig' :
        (msg.tx.signatures.set msg.signerIndex (flipBit sig i))[msg.signerIndex]?
          = some (flipBit sig i) := List.getElem?_set_self hlen
    have heqc : sig = canonicalSig pk signBytes := eq_of_beq hv
    have hv' : verifySignature pk signBytes (flipBit sig i) = false := by
      have hne : flipBit sig i ≠ canonicalSig pk signBytes := by
        rw [← heqc]
        exact flipBit_ne sig i hi
      exact beq_eq_false_iff_ne.mpr hne
    have htd' : getTxData env
        { msg with tx := { msg.tx with
            signatures :=
              msg.tx.signatures.set msg.signerIndex (flipBit sig i) } }
          = Except.ok td := htd
    have hsi' :
        ({ msg with tx := { msg.tx with
            signatures :=
              msg.tx.signatures.set msg.signerIndex (flipBit sig i) } } :
              MsgAuthenticate).tx.authInfo.signerInfos[msg.signerIndex]?
          = some si := hsi
    unfold Authenticate
    rw [hpriv]
    simp only [Bool.not_true, Bool.false_eq_true, if_false]
    rw [hcsd]
    simp only [htd', hsi']
    rw [if_neg (fun h => h hseq)]
    simp only [hmode, hsig', hsb]
    simp [hv']

/-- Witness for C3: the fixture signature authenticates; the same request
with bit 0 of the signature flipped fails verification. -/
theorem authenticate_signature_correct_witness :
    Authenticate egEnv egState egMsg = (egStNext, Except.ok ())
    ∧ (Authenticate egEnv egState egMsgFlipped).2
        = Except.error Err.signatureVerificationFailed := by
  obtain ⟨h1, h2⟩ :=
    authenticate_signature_correct egEnv egState egMsg
      rfl rfl rfl rfl rfl rfl rfl rfl rfl
  exact ⟨h1, h2 0 (by decide)⟩

end Base
